import Mathlib

/-!
Shallow embedding of the `hotosm-auth` repository pieces exercised by the
claims: bearer-token extraction, the OSM-connection cookie writer, the
Django current-user resolution, the user-mapping resolver of both the
FastAPI adapter (`hotosm_auth/integrations/fastapi.py`) and the Django
adapter (`hotosm_auth/integrations/django.py`), and the persisted schema
of `hanko_user_mappings` (`hotosm_auth_django/migrations/0001_initial.py`).

Python strings are embedded as `String`, dictionaries as association
lists, `None`-able values as `Option`, and Python truthiness of an
optional string (`None` and `""` are falsy) as `pyTruthy`.  String
primitives that the adapters use (`str.startswith`, slicing, `str.lower`)
are given structural list-based definitions so that they evaluate by
kernel reduction.
-/

/-- Python truthiness of an `Optional[str]` value: `None` and the empty
string are falsy, every other string is truthy. -/
def pyTruthy : Option String → Bool
  | none => false
  | some s => !(s == "")

/-- Lookup in a Python dict modelled as an association list
(`d.get(k)`): the first binding of the key, if any. -/
def dictGet (d : List (String × String)) (k : String) : Option String :=
  (d.find? (fun kv => kv.1 == k)).map (fun kv => kv.2)

/-- Python `s.startswith(p)`, via list prefix on the character data. -/
def strStartsWith (s p : String) : Bool :=
  p.data.isPrefixOf s.data

/-- Python slicing `s[n:]`, via list drop on the character data. -/
def strDrop (s : String) (n : Nat) : String :=
  ⟨s.data.drop n⟩

/-- Python `s.lower()`, character-wise. -/
def strToLower (s : String) : String :=
  ⟨s.data.map Char.toLower⟩

/-- Modelled from the spec: `VerifiedIdentity` (internally `HankoUser`,
defined in `hotosm_auth/models.py`, which is outside the embedded
sources).  Only the attributes the embedded adapter code reads are
carried: the stable subject identifier (`id`), the email, and the
optional display name. -/
structure HankoUser where
  id : String
  email : String
  name : Option String
deriving DecidableEq

/-- Modelled from the spec: `OSMConnection` (defined in
`hotosm_auth/models.py`, outside the embedded sources): external account
username and numeric id, OAuth access token, optional refresh token,
optional token expiry timestamp (seconds), granted scope set.  The
cookie writer only reads `expires_at`. -/
structure OSMConnection where
  osm_username : String
  osm_id : Int
  access_token : String
  refresh_token : Option String
  expires_at : Option Int
  scopes : List String
deriving DecidableEq

/-- Modelled from the spec: the cookie-relevant slice of `AuthConfig`
(defined in `hotosm_auth/config.py`, outside the embedded sources):
secure flag, SameSite policy, optional domain. -/
structure AuthConfig where
  cookie_secure : Bool
  cookie_samesite : String
  cookie_domain : Option String
deriving DecidableEq

/-- The credentials object produced by FastAPI's `HTTPBearer` scheme:
an authorization scheme and the token text. -/
structure HTTPAuthorizationCredentials where
  scheme : String
  credentials : String
deriving DecidableEq

/-- `get_token_from_request` of the FastAPI adapter
(`integrations/fastapi.py`): return the header credentials when present
with scheme `bearer` (case-insensitive), otherwise the `hanko` cookie. -/
def fastapiGetTokenFromRequest (cookies : List (String × String))
    (credentials : Option HTTPAuthorizationCredentials) : Option String :=
  match credentials with
  | some c =>
      if strToLower c.scheme == "bearer" then some c.credentials
      else dictGet cookies "hanko"
  | none => dictGet cookies "hanko"

/-- `get_token_from_request` of the Django adapter
(`integrations/django.py`): read `HTTP_AUTHORIZATION` from `request.META`
with default `""`; if it starts with `"Bearer "` return the rest,
otherwise the `hanko` cookie. -/
def djangoGetTokenFromRequest (meta : List (String × String))
    (cookies : List (String × String)) : Option String :=
  let auth_header := (dictGet meta "HTTP_AUTHORIZATION").getD ""
  if strStartsWith auth_header "Bearer " then some (strDrop auth_header 7)
  else dictGet cookies "hanko"

/-- Outcome of the body of the `try` block in the Django adapter's
`get_current_user`: validator construction plus
`validator.validate_token(token)` either yields a user or raises one of
the caught exception classes (`TokenExpiredError`, `TokenInvalidError`,
`AuthenticationError`) or any other `Exception`. -/
inductive ValidationOutcome where
  | success (user : HankoUser)
  | tokenExpired
  | tokenInvalid
  | authenticationError
  | unexpectedException
deriving DecidableEq

/-- `get_current_user` of the Django adapter (`integrations/django.py`):
extract the token; `if not token: return None`; then validate inside a
`try` whose handlers all return `None`.  The validator behaviour is a
parameter, since `jwt_validator.py` is outside the embedded sources. -/
def djangoGetCurrentUser (meta cookies : List (String × String))
    (validateToken : String → ValidationOutcome) : Option HankoUser :=
  match djangoGetTokenFromRequest meta cookies with
  | none => none
  | some t =>
      if t == "" then none
      else
        match validateToken t with
        | .success u => some u
        | .tokenExpired => none
        | .tokenInvalid => none
        | .authenticationError => none
        | .unexpectedException => none

/-- The observable effect of one `response.set_cookie(...)` call, with
the keyword arguments the adapters pass. -/
structure SetCookieCall where
  key : String
  value : String
  httponly : Bool
  secure : Bool
  samesite : String
  domain : Option String
  max_age : Option Int
  path : String
deriving DecidableEq

/-- `set_osm_cookie` of the FastAPI adapter (`integrations/fastapi.py`).
Timestamps are embedded as whole seconds, so
`int((expires_at - datetime.utcnow()).total_seconds())` is the integer
difference.  The encrypted value is a parameter because `crypto.py` is
outside the embedded sources. -/
def fastapiSetOsmCookie (conn : OSMConnection) (config : AuthConfig)
    (now : Int) (encrypted : String) : SetCookieCall :=
  let max_age : Option Int :=
    match conn.expires_at with
    | some e => some (e - now)
    | none => none
  { key := "osm_connection", value := encrypted, httponly := true,
    secure := config.cookie_secure, samesite := config.cookie_samesite,
    domain := config.cookie_domain, max_age := max_age, path := "/" }

/-- `set_osm_cookie` of the Django adapter (`integrations/django.py`);
same cookie construction as the FastAPI one, with the configuration
fetched from the module singleton. -/
def djangoSetOsmCookie (conn : OSMConnection) (config : AuthConfig)
    (now : Int) (encrypted : String) : SetCookieCall :=
  let max_age : Option Int :=
    match conn.expires_at with
    | some e => some (e - now)
    | none => none
  { key := "osm_connection", value := encrypted, httponly := true,
    secure := config.cookie_secure, samesite := config.cookie_samesite,
    domain := config.cookie_domain, max_age := max_age, path := "/" }

/-- A row of the `hanko_user_mappings` table
(`hotosm_auth_django/migrations/0001_initial.py`); the timestamp columns
`created_at` and `updated_at` are filled by the database and read by no
embedded code, so they are not carried. -/
structure MappingRow where
  hanko_user_id : String
  app_user_id : String
  app_name : String
deriving DecidableEq

/-- The mapping table as an ordered list of rows. -/
abbrev MappingDB := List MappingRow

/-- The migration declares `hanko_user_id` with `primary_key=True`: an
insert violates the primary key when some existing row already has the
same `hanko_user_id`. -/
def violatesPrimaryKey (db : MappingDB) (r : MappingRow) : Bool :=
  db.any (fun r0 => r0.hanko_user_id == r.hanko_user_id)

/-- The migration also adds `UniqueConstraint(fields=('hanko_user_id',
'app_name'), name='uq_hanko_app')`. -/
def violatesUqHankoApp (db : MappingDB) (r : MappingRow) : Bool :=
  db.any (fun r0 =>
    r0.hanko_user_id == r.hanko_user_id && r0.app_name == r.app_name)

/-- Result of executing the `INSERT INTO hanko_user_mappings ...`
statement against a database state: either the new state, or the
uniqueness-constraint violation the database raises. -/
inductive InsertOutcome where
  | ok (db : MappingDB)
  | uniqueViolation
deriving DecidableEq

/-- Execute the insert under the schema constraints of the migration. -/
def insertMapping (db : MappingDB) (r : MappingRow) : InsertOutcome :=
  if violatesPrimaryKey db r || violatesUqHankoApp db r then .uniqueViolation
  else .ok (db ++ [r])

/-- The `SELECT app_user_id FROM hanko_user_mappings WHERE
hanko_user_id = %s AND app_name = %s` query followed by `fetchone`. -/
def selectMapping (db : MappingDB) (hankoId appName : String) : Option String :=
  (db.find? (fun r => r.hanko_user_id == hankoId && r.app_name == appName)).map
    (fun r => r.app_user_id)

/-- The sequential computation of `new_user_id` through the email-lookup
and user-creation capabilities in the FastAPI `get_mapped_user_id`
(`integrations/fastapi.py`): start at `None`; if an email-lookup function
is supplied and its result is truthy, take it; then, if the value is
still falsy and a user-creation function is supplied, take its result.
The capabilities are modelled as pure functions of their non-connection
argument. -/
def fastapiCapabilityCandidate (u : HankoUser)
    (emailLookupFn : Option (String → Option String))
    (userCreatorFn : Option (HankoUser → String)) : Option String :=
  let n1 : Option String :=
    match emailLookupFn with
    | some f =>
        let existingUserId := f u.email
        if pyTruthy existingUserId then existingUserId else none
    | none => none
  if !(pyTruthy n1) then
    match userCreatorFn with
    | some g => some (g u)
    | none => n1
  else n1

/-- The final `new_user_id` of the FastAPI `get_mapped_user_id`: when
the capability candidate is falsy, fall back to `user_id_generator()`
when supplied and to `hanko_user.id` otherwise. -/
def fastapiNewUserId (u : HankoUser)
    (emailLookupFn : Option (String → Option String))
    (userCreatorFn : Option (HankoUser → String))
    (userIdGenerator : Option (Unit → String)) : String :=
  let n2 := fastapiCapabilityCandidate u emailLookupFn userCreatorFn
  if !(pyTruthy n2) then
    match userIdGenerator with
    | some gen => gen ()
    | none => u.id
  else n2.getD ""

/-- The Python default values of the FastAPI `get_mapped_user_id`
keyword arguments: `app_name="default"`, `auto_create=True`. -/
def FASTAPI_DEFAULT_APP_NAME : String := "default"

/-- Default `auto_create` of the FastAPI `get_mapped_user_id`. -/
def FASTAPI_DEFAULT_AUTO_CREATE : Bool := true

/-- Default `app_name` of the Django `get_mapped_user_id`. -/
def DJANGO_DEFAULT_APP_NAME : String := "default"

/-- Default `auto_create` of the Django `get_mapped_user_id`. -/
def DJANGO_DEFAULT_AUTO_CREATE : Bool := false

/-- Result of a call to the FastAPI `get_mapped_user_id`, together with
the table state it leaves behind: a returned app user id, the
`HTTPException` with status 403 raised when no mapping exists and
`auto_create` is false, or the database `UniqueViolation` that the
uncaught `INSERT` raises. -/
inductive FastapiResolveOutcome where
  | ok (appUserId : String) (db : MappingDB)
  | forbidden403 (db : MappingDB)
  | uniqueViolation (db : MappingDB)
deriving DecidableEq

/-- `get_mapped_user_id` of the FastAPI adapter
(`integrations/fastapi.py`): select the existing row and return it when
found; otherwise raise 403 unless `auto_create`; otherwise compute
`new_user_id` and insert.  `interleaved` holds rows inserted by
concurrent transactions between this call's `SELECT` and its `INSERT`
(empty for a sequential run); the `INSERT` executes against
`db ++ interleaved` and its constraint violation is not caught by the
Python function. -/
def fastapiGetMappedUserId (hankoUser : HankoUser) (db : MappingDB)
    (appName : String) (autoCreate : Bool)
    (emailLookupFn : Option (String → Option String))
    (userCreatorFn : Option (HankoUser → String))
    (userIdGenerator : Option (Unit → String))
    (interleaved : MappingDB) : FastapiResolveOutcome :=
  match selectMapping db hankoUser.id appName with
  | some appUserId => .ok appUserId db
  | none =>
      if !autoCreate then .forbidden403 db
      else
        let newUserId :=
          fastapiNewUserId hankoUser emailLookupFn userCreatorFn userIdGenerator
        match insertMapping (db ++ interleaved)
            ⟨hankoUser.id, newUserId, appName⟩ with
        | .ok db2 => .ok newUserId db2
        | .uniqueViolation => .uniqueViolation (db ++ interleaved)

/-- Result of a call to the Django `get_mapped_user_id`: the returned
`Optional[str]` together with the table state, the `ValueError` raised
when `auto_create` is true and no generator is supplied, or the database
`IntegrityError` that the uncaught `INSERT` raises. -/
inductive DjangoResolveOutcome where
  | ok (appUserId : Option String) (db : MappingDB)
  | valueError (db : MappingDB)
  | uniqueViolation (db : MappingDB)
deriving DecidableEq

/-- `get_mapped_user_id` of the Django adapter
(`integrations/django.py`): select and return the existing row when
found; otherwise return `None` unless `auto_create`; otherwise require a
generator (`ValueError` when missing), generate the id and insert.
`str()` on the generator's string result is the identity.  As in the
FastAPI version, `interleaved` models concurrent inserts between the
`SELECT` and the `INSERT`, whose constraint violation is not caught. -/
def djangoGetMappedUserId (hankoUser : HankoUser) (db : MappingDB)
    (appName : String) (autoCreate : Bool)
    (userIdGenerator : Option (Unit → String))
    (interleaved : MappingDB) : DjangoResolveOutcome :=
  match selectMapping db hankoUser.id appName with
  | some appUserId => .ok (some appUserId) db
  | none =>
      if !autoCreate then .ok none db
      else
        match userIdGenerator with
        | none => .valueError db
        | some gen =>
            let newUserId := gen ()
            match insertMapping (db ++ interleaved)
                ⟨hankoUser.id, newUserId, appName⟩ with
            | .ok db2 => .ok (some newUserId) db2
            | .uniqueViolation => .uniqueViolation (db ++ interleaved)

/-- Reachable states of the `hanko_user_mappings` table under the core's
own mutations: it starts empty and grows only through successful inserts
subject to the migration's constraints (the core never deletes rows). -/
inductive ReachableDB : MappingDB → Prop where
  | empty : ReachableDB []
  | insert (db : MappingDB) (r : MappingRow) (db2 : MappingDB) :
      ReachableDB db → insertMapping db r = .ok db2 → ReachableDB db2

/-!
Helper lemmas shared by the claim theorems.
-/

theorem strStartsWith_self_append (p t : String) :
    strStartsWith (p ++ t) p = true := by
  obtain ⟨l⟩ := p
  obtain ⟨m⟩ := t
  simp [strStartsWith, String.append, List.isPrefixOf_iff_prefix]

theorem strDrop_bearer (t : String) : strDrop ("Bearer " ++ t) 7 = t := by
  obtain ⟨m⟩ := t
  show String.mk ((("Bearer ").data ++ m).drop 7) = ⟨m⟩
  have h7 : ("Bearer ").data.length = 7 := by decide
  rw [← h7, List.drop_left]

theorem selectMapping_eq_none (db : MappingDB) (hankoId appName : String)
    (h : ∀ r ∈ db, r.hanko_user_id ≠ hankoId) :
    selectMapping db hankoId appName = none := by
  unfold selectMapping
  have hfind : db.find?
      (fun r => r.hanko_user_id == hankoId && r.app_name == appName) = none := by
    rw [List.find?_eq_none]
    intro r hr
    simp only [Bool.and_eq_true, beq_iff_eq, not_and]
    intro h1 _
    exact h r hr h1
  rw [hfind]
  rfl

theorem insertMapping_fresh (db : MappingDB) (r : MappingRow)
    (h : ∀ r0 ∈ db, r0.hanko_user_id ≠ r.hanko_user_id) :
    insertMapping db r = .ok (db ++ [r]) := by
  unfold insertMapping
  have hpk : violatesPrimaryKey db r = false := by
    unfold violatesPrimaryKey
    rw [List.any_eq_false]
    intro r0 hr0
    simp only [beq_iff_eq]
    exact h r0 hr0
  have huq : violatesUqHankoApp db r = false := by
    unfold violatesUqHankoApp
    rw [List.any_eq_false]
    intro r0 hr0
    simp only [Bool.and_eq_true, beq_iff_eq, not_and]
    intro h1 _
    exact h r0 hr0 h1
  rw [hpk, huq]
  rfl

theorem reachable_pk_unique (db : MappingDB) (h : ReachableDB db) :
    ∀ r1, r1 ∈ db → ∀ r2, r2 ∈ db →
      r1.hanko_user_id = r2.hanko_user_id → r1 = r2 := by
  induction h with
  | empty =>
      intro r1 h1
      simp at h1
  | insert db r db2 hre hins ih =>
      unfold insertMapping at hins
      split at hins
      · cases hins
      · next hcond =>
          injection hins with hdb2
          subst hdb2
          have hpk : violatesPrimaryKey db r = false := by
            cases hv : violatesPrimaryKey db r
            · rfl
            · exact absurd (by simp [hv]) hcond
          have hfresh : ∀ r0 ∈ db, r0.hanko_user_id ≠ r.hanko_user_id := by
            unfold violatesPrimaryKey at hpk
            rw [List.any_eq_false] at hpk
            intro r0 hr0
            have := hpk r0 hr0
            simpa using this
          intro r1 h1 r2 h2 heq
          rw [List.mem_append, List.mem_singleton] at h1 h2
          rcases h1 with h1 | h1 <;> rcases h2 with h2 | h2
          · exact ih r1 h1 r2 h2 heq
          · subst h2
            exact absurd heq (hfresh r1 h1)
          · subst h1
            exact absurd heq.symm (hfresh r2 h2)
          · subst h1
            subst h2
            rfl

/-!
Claim theorems.
-/

/-- C1: the claim says a uniqueness-constraint violation raised by the
mapping insert (because a concurrent resolution inserted first) is
recovered by re-reading the row and is never propagated.  The code has
no handler around the `INSERT`: evaluated at the racing history (empty
table at `SELECT` time, a concurrent row `("abc","w1","fair")` present
at `INSERT` time), both adapters' `get_mapped_user_id` end in the
propagated `UniqueViolation`, not in a re-read result. -/
theorem c1_race_violation_propagates :
    fastapiGetMappedUserId ⟨"abc", "abc@example.org", none⟩ [] "fair" true
      none none (some (fun _ => "g1")) [⟨"abc", "w1", "fair"⟩] =
      .uniqueViolation [⟨"abc", "w1", "fair"⟩] ∧
    djangoGetMappedUserId ⟨"abc", "abc@example.org", none⟩ [] "fair" true
      (some (fun _ => "g1")) [⟨"abc", "w1", "fair"⟩] =
      .uniqueViolation [⟨"abc", "w1", "fair"⟩] :=
  ⟨by decide, by decide⟩

/-- C4: when a mapping row for (subject, app name) exists, both
adapters' `get_mapped_user_id` return its stored application user id and
leave the table unchanged, whatever the remaining arguments. -/
theorem c4_existing_row_fast_path (u : HankoUser) (db : MappingDB)
    (appName appUserId : String)
    (h : selectMapping db u.id appName = some appUserId) :
    (∀ autoCreate emailLookupFn userCreatorFn userIdGenerator interleaved,
      fastapiGetMappedUserId u db appName autoCreate emailLookupFn
        userCreatorFn userIdGenerator interleaved = .ok appUserId db) ∧
    (∀ autoCreate userIdGenerator interleaved,
      djangoGetMappedUserId u db appName autoCreate userIdGenerator
        interleaved = .ok (some appUserId) db) := by
  constructor
  · intro autoCreate emailLookupFn userCreatorFn userIdGenerator interleaved
    unfold fastapiGetMappedUserId
    rw [h]
  · intro autoCreate userIdGenerator interleaved
    unfold djangoGetMappedUserId
    rw [h]

/-- C4 witness: a concrete existing row is returned unchanged. -/
theorem c4_existing_row_fast_path_witness :
    fastapiGetMappedUserId ⟨"abc", "a@b", none⟩ [⟨"abc", "u7", "fair"⟩]
      "fair" true none none none [] = .ok "u7" [⟨"abc", "u7", "fair"⟩] :=
  (c4_existing_row_fast_path ⟨"abc", "a@b", none⟩ [⟨"abc", "u7", "fair"⟩]
    "fair" "u7" (by decide)).1 true none none none []

/-- C5: with no mapping row and auto-create disabled, the FastAPI
adapter raises the 403 `HTTPException` (its onboarding signal) and the
Django adapter returns `None`; neither inserts a row, so the table is
unchanged. -/
theorem c5_absent_no_autocreate (u : HankoUser) (db : MappingDB)
    (appName : String) (h : selectMapping db u.id appName = none) :
    (∀ emailLookupFn userCreatorFn userIdGenerator interleaved,
      fastapiGetMappedUserId u db appName false emailLookupFn userCreatorFn
        userIdGenerator interleaved = .forbidden403 db) ∧
    (∀ userIdGenerator interleaved,
      djangoGetMappedUserId u db appName false userIdGenerator interleaved =
        .ok none db) := by
  constructor
  · intro emailLookupFn userCreatorFn userIdGenerator interleaved
    unfold fastapiGetMappedUserId
    rw [h]
    rfl
  · intro userIdGenerator interleaved
    unfold djangoGetMappedUserId
    rw [h]
    rfl

/-- C5 witness: concrete absent mapping under `auto_create=False`. -/
theorem c5_absent_no_autocreate_witness :
    fastapiGetMappedUserId ⟨"abc", "a@b", none⟩ [] "fair" false none none
      none [] = .forbidden403 [] :=
  (c5_absent_no_autocreate ⟨"abc", "a@b", none⟩ [] "fair" (by decide)).1
    none none none []

/-- C6: the spec scenario: subject "abc", app "fair", no existing row,
auto-create on, no email-lookup or creator capability, generator
returning "g1" — both adapters insert ("abc","g1","fair") and return
"g1". -/
theorem c6_scenario_generator_g1 :
    fastapiGetMappedUserId ⟨"abc", "abc@example.org", none⟩ [] "fair" true
      none none (some (fun _ => "g1")) [] =
      .ok "g1" [⟨"abc", "g1", "fair"⟩] ∧
    djangoGetMappedUserId ⟨"abc", "abc@example.org", none⟩ [] "fair" true
      (some (fun _ => "g1")) [] = .ok (some "g1") [⟨"abc", "g1", "fair"⟩] :=
  ⟨by decide, by decide⟩

/-- C7: both adapters' `set_osm_cookie` emit an httpOnly cookie on path
"/" carrying the configured secure flag, SameSite policy and domain,
whose max-age is the whole number of seconds from now to the
connection's expiry when present and absent otherwise. -/
theorem c7_osm_cookie_attributes (conn : OSMConnection) (config : AuthConfig)
    (now : Int) (encrypted : String) :
    (fastapiSetOsmCookie conn config now encrypted).httponly = true ∧
    (fastapiSetOsmCookie conn config now encrypted).path = "/" ∧
    (fastapiSetOsmCookie conn config now encrypted).secure =
      config.cookie_secure ∧
    (fastapiSetOsmCookie conn config now encrypted).samesite =
      config.cookie_samesite ∧
    (fastapiSetOsmCookie conn config now encrypted).domain =
      config.cookie_domain ∧
    (fastapiSetOsmCookie conn config now encrypted).max_age =
      conn.expires_at.map (fun e => e - now) ∧
    (djangoSetOsmCookie conn config now encrypted).httponly = true ∧
    (djangoSetOsmCookie conn config now encrypted).path = "/" ∧
    (djangoSetOsmCookie conn config now encrypted).secure =
      config.cookie_secure ∧
    (djangoSetOsmCookie conn config now encrypted).samesite =
      config.cookie_samesite ∧
    (djangoSetOsmCookie conn config now encrypted).domain =
      config.cookie_domain ∧
    (djangoSetOsmCookie conn config now encrypted).max_age =
      conn.expires_at.map (fun e => e - now) := by
  cases hexp : conn.expires_at <;>
    simp [fastapiSetOsmCookie, djangoSetOsmCookie, hexp]

/-- C10: the two adapters' `get_mapped_user_id` differ at their
defaults: `auto_create` defaults to `True` in FastAPI and to `False` in
Django; at its default the Django version returns exactly the selected
row (so `None` when absent) and never changes the table, while the
FastAPI version at its defaults inserts a row for a new subject (falling
back to the subject id); with auto-create on and no generator the Django
version raises `ValueError` where the FastAPI version falls back to the
subject id. -/
theorem c10_adapter_defaults_diverge :
    FASTAPI_DEFAULT_AUTO_CREATE = true ∧
    DJANGO_DEFAULT_AUTO_CREATE = false ∧
    (∀ (u : HankoUser) (db : MappingDB) (appName : String),
      djangoGetMappedUserId u db appName DJANGO_DEFAULT_AUTO_CREATE none [] =
        .ok (selectMapping db u.id appName) db) ∧
    fastapiGetMappedUserId ⟨"abc", "abc@example.org", none⟩ []
      FASTAPI_DEFAULT_APP_NAME FASTAPI_DEFAULT_AUTO_CREATE none none none [] =
      .ok "abc" [⟨"abc", "abc", "default"⟩] ∧
    djangoGetMappedUserId ⟨"abc", "abc@example.org", none⟩ []
      DJANGO_DEFAULT_APP_NAME true none [] = .valueError [] := by
  refine ⟨rfl, rfl, ?_, by decide, by decide⟩
  intro u db appName
  unfold djangoGetMappedUserId DJANGO_DEFAULT_AUTO_CREATE
  cases hsel : selectMapping db u.id appName <;> simp [hsel]

/-- C2: for a verified identity with no existing mapping row, with
auto-create enabled, when neither the email-lookup capability nor the
user-creation capability yields an application user id, the FastAPI
`get_mapped_user_id` (the adapter that implements these capabilities)
uses the caller-supplied id generator when one is supplied and otherwise
reuses the identity's subject id, inserting the mapping row with that
value. -/
theorem c2_generator_then_subject_fallback (u : HankoUser) (db : MappingDB)
    (appName : String)
    (emailLookupFn : Option (String → Option String))
    (userCreatorFn : Option (HankoUser → String))
    (hfresh : ∀ r ∈ db, r.hanko_user_id ≠ u.id)
    (hnoCap : pyTruthy
      (fastapiCapabilityCandidate u emailLookupFn userCreatorFn) = false) :
    (∀ gen : Unit → String,
      fastapiGetMappedUserId u db appName true emailLookupFn userCreatorFn
        (some gen) [] = .ok (gen ()) (db ++ [⟨u.id, gen (), appName⟩])) ∧
    fastapiGetMappedUserId u db appName true emailLookupFn userCreatorFn
      none [] = .ok u.id (db ++ [⟨u.id, u.id, appName⟩]) := by
  have hsel := selectMapping_eq_none db u.id appName hfresh
  constructor
  · intro gen
    unfold fastapiGetMappedUserId
    rw [hsel]
    have hnew : fastapiNewUserId u emailLookupFn userCreatorFn (some gen) =
        gen () := by
      simp [fastapiNewUserId, hnoCap]
    simp only [List.append_nil, hnew]
    rw [insertMapping_fresh db ⟨u.id, gen (), appName⟩ hfresh]
    rfl
  · unfold fastapiGetMappedUserId
    rw [hsel]
    have hnew : fastapiNewUserId u emailLookupFn userCreatorFn none = u.id := by
      simp [fastapiNewUserId, hnoCap]
    simp only [List.append_nil, hnew]
    rw [insertMapping_fresh db ⟨u.id, u.id, appName⟩ hfresh]
    rfl

/-- C2 witness: concrete instance with a generator returning "g2". -/
theorem c2_generator_then_subject_fallback_witness :
    fastapiGetMappedUserId ⟨"abc", "a@b", none⟩ [] "fair" true none none
      (some (fun _ => "g2")) [] = .ok "g2" [⟨"abc", "g2", "fair"⟩] :=
  (c2_generator_then_subject_fallback ⟨"abc", "a@b", none⟩ [] "fair" none none
    (by simp) (by decide)).1 (fun _ => "g2")

/-- C3: token extraction in both adapters prefers a Bearer
Authorization header over the named `hanko` cookie; the cookie value is
returned only when no Bearer header is present, and the result is `None`
when neither is present. -/
theorem c3_bearer_header_priority :
    (∀ (cookies : List (String × String)) (c : HTTPAuthorizationCredentials),
      (strToLower c.scheme == "bearer") = true →
      fastapiGetTokenFromRequest cookies (some c) = some c.credentials) ∧
    (∀ (cookies : List (String × String)) (c : HTTPAuthorizationCredentials),
      (strToLower c.scheme == "bearer") = false →
      fastapiGetTokenFromRequest cookies (some c) = dictGet cookies "hanko") ∧
    (∀ cookies : List (String × String),
      fastapiGetTokenFromRequest cookies none = dictGet cookies "hanko") ∧
    fastapiGetTokenFromRequest [] none = none ∧
    (∀ (t : String) (meta cookies : List (String × String)),
      dictGet meta "HTTP_AUTHORIZATION" = some ("Bearer " ++ t) →
      djangoGetTokenFromRequest meta cookies = some t) ∧
    (∀ (meta cookies : List (String × String)) (h : String),
      dictGet meta "HTTP_AUTHORIZATION" = some h →
      strStartsWith h "Bearer " = false →
      djangoGetTokenFromRequest meta cookies = dictGet cookies "hanko") ∧
    (∀ meta cookies : List (String × String),
      dictGet meta "HTTP_AUTHORIZATION" = none →
      djangoGetTokenFromRequest meta cookies = dictGet cookies "hanko") ∧
    djangoGetTokenFromRequest [] [] = none := by
  refine ⟨?_, ?_, ?_, by decide, ?_, ?_, ?_, by decide⟩
  · intro cookies c hb
    simp [fastapiGetTokenFromRequest, hb]
  · intro cookies c hb
    simp [fastapiGetTokenFromRequest, hb]
  · intro cookies
    rfl
  · intro t meta cookies hh
    unfold djangoGetTokenFromRequest
    rw [hh]
    simp only [Option.getD_some]
    rw [strStartsWith_self_append]
    simp only [if_true]
    rw [strDrop_bearer]
  · intro meta cookies hv hh hstart
    unfold djangoGetTokenFromRequest
    rw [hh]
    simp only [Option.getD_some]
    rw [hstart]
    rfl
  · intro meta cookies hh
    unfold djangoGetTokenFromRequest
    rw [hh]
    rfl

/-- C3 witness: a request with both a Bearer header and a `hanko`
cookie yields the header token. -/
theorem c3_bearer_header_priority_witness :
    fastapiGetTokenFromRequest [("hanko", "ck")]
      (some ⟨"Bearer", "tok"⟩) = some "tok" :=
  c3_bearer_header_priority.1 [("hanko", "ck")] ⟨"Bearer", "tok"⟩ (by decide)

/-- C8: under the migration's schema, `hanko_user_id` alone is the
primary key of `hanko_user_mappings`, so every reachable table state
holds at most one row per subject across all application names; in
particular one subject never holds rows for two distinct `app_name`
values. -/
theorem c8_primary_key_single_row_per_subject (db : MappingDB)
    (h : ReachableDB db) :
    (∀ r1 ∈ db, ∀ r2 ∈ db,
      r1.hanko_user_id = r2.hanko_user_id → r1 = r2) ∧
    (∀ r1 ∈ db, ∀ r2 ∈ db,
      r1.hanko_user_id = r2.hanko_user_id → r1.app_name = r2.app_name) := by
  refine ⟨reachable_pk_unique db h, ?_⟩
  intro r1 h1 r2 h2 heq
  rw [reachable_pk_unique db h r1 h1 r2 h2 heq]

/-- C8 witness: a concrete reachable one-row state. -/
theorem c8_primary_key_single_row_per_subject_witness :
    ReachableDB [⟨"a", "u", "app1"⟩] ∧
    (⟨"a", "u", "app1"⟩ : MappingRow).app_name =
      (⟨"a", "u", "app1"⟩ : MappingRow).app_name := by
  have hre : ReachableDB [⟨"a", "u", "app1"⟩] :=
    ReachableDB.insert [] ⟨"a", "u", "app1"⟩ _ ReachableDB.empty (by decide)
  exact ⟨hre, (c8_primary_key_single_row_per_subject _ hre).2
    _ (by simp) _ (by simp) rfl⟩

/-- C9: the Django adapter's `get_current_user` never propagates an
exception: a missing or empty token, an expired token, an invalid token,
a generic authentication error and any unexpected exception during
validation all yield `None`, and a non-`None` result occurs only on
successful validation. -/
theorem c9_django_current_user_never_raises
    (meta cookies : List (String × String))
    (validateToken : String → ValidationOutcome) :
    (djangoGetTokenFromRequest meta cookies = none →
      djangoGetCurrentUser meta cookies validateToken = none) ∧
    (∀ t, djangoGetTokenFromRequest meta cookies = some t → t = "" →
      djangoGetCurrentUser meta cookies validateToken = none) ∧
    (∀ t, djangoGetTokenFromRequest meta cookies = some t →
      validateToken t = .tokenExpired →
      djangoGetCurrentUser meta cookies validateToken = none) ∧
    (∀ t, djangoGetTokenFromRequest meta cookies = some t →
      validateToken t = .tokenInvalid →
      djangoGetCurrentUser meta cookies validateToken = none) ∧
    (∀ t, djangoGetTokenFromRequest meta cookies = some t →
      validateToken t = .authenticationError →
      djangoGetCurrentUser meta cookies validateToken = none) ∧
    (∀ t, djangoGetTokenFromRequest meta cookies = some t →
      validateToken t = .unexpectedException →
      djangoGetCurrentUser meta cookies validateToken = none) ∧
    (∀ u, djangoGetCurrentUser meta cookies validateToken = some u →
      ∃ t, djangoGetTokenFromRequest meta cookies = some t ∧ t ≠ "" ∧
        validateToken t = .success u) := by
  refine ⟨?_, ?_, ?_, ?_, ?_, ?_, ?_⟩
  · intro h
    unfold djangoGetCurrentUser
    rw [h]
  · intro t ht he
    unfold djangoGetCurrentUser
    rw [ht]
    simp [he]
  · intro t ht hv
    unfold djangoGetCurrentUser
    rw [ht]
    by_cases he : t = ""
    · simp [he]
    · simp [he, hv]
  · intro t ht hv
    unfold djangoGetCurrentUser
    rw [ht]
    by_cases he : t = ""
    · simp [he]
    · simp [he, hv]
  · intro t ht hv
    unfold djangoGetCurrentUser
    rw [ht]
    by_cases he : t = ""
    · simp [he]
    · simp [he, hv]
  · intro t ht hv
    unfold djangoGetCurrentUser
    rw [ht]
    by_cases he : t = ""
    · simp [he]
    · simp [he, hv]
  · intro u hu
    unfold djangoGetCurrentUser at hu
    cases htok : djangoGetTokenFromRequest meta cookies with
    | none =>
        rw [htok] at hu
        cases hu
    | some t =>
        rw [htok] at hu
        by_cases he : t = ""
        · simp [he] at hu
        · simp only [he, beq_iff_eq, if_neg] at hu
          cases hv : validateToken t with
          | success u0 =>
              rw [hv] at hu
              simp at hu
              exact ⟨t, rfl, he, by rw [hv, hu]⟩
          | tokenExpired => rw [hv] at hu; cases hu
          | tokenInvalid => rw [hv] at hu; cases hu
          | authenticationError => rw [hv] at hu; cases hu
          | unexpectedException => rw [hv] at hu; cases hu

/-- C9 witness: a request with no token resolves to `None`. -/
theorem c9_django_current_user_never_raises_witness :
    djangoGetCurrentUser [] [] (fun _ => ValidationOutcome.unexpectedException) =
      none :=
  (c9_django_current_user_never_raises [] []
    (fun _ => ValidationOutcome.unexpectedException)).1 (by decide)
